import Mathlib

/-!
Verification development for the travel-itinerary planning chatbot.

The repository has two source files:
  * `flights_mcp.py` — a FastMCP tool server exposing `search_flights` and
    `get_cheapest_flight`, thin wrappers over the Amadeus flight-offers API.
  * `travel_planner_chatbot.py` — the orchestration side: a tool list built
    from two local tools plus tools discovered from remote MCP servers, a
    LangGraph state graph alternating a chat node and a tool node, and an
    SQLite-backed checkpointer for session history.

Pure logic is embedded directly from the source.  External effects (the
Amadeus backend, the airport-code lookup, MCP server discovery, the language
model, tool execution, the checkpointer database) are parameters of the
embedded functions, so each embedded function is the source function with its
network calls abstracted as inputs.
-/

set_option autoImplicit false

namespace TravelPlanner

/-! ## Flight tool server (`flights_mcp.py`)

The Amadeus response data is a list of offers.  An offer, as the source
accesses it, has a list of itineraries, each with a list of segments and an
optional duration, and an optional price total and currency (the source uses
`.get`, which yields `None` when absent, on price fields, but plain indexing,
which raises, on itineraries and segments). -/

structure Segment where
  depCode : String
  depAt : String
  arrCode : String
  arrAt : String
  carrier : String
deriving DecidableEq

structure Itinerary where
  segments : List Segment
  duration : Option String
deriving DecidableEq

structure Offer where
  itineraries : List Itinerary
  priceTotal : Option String
  priceCurrency : Option String
deriving DecidableEq

structure SummarizedOffer where
  airline : String
  fromCode : String
  toCode : String
  departureTime : String
  arrivalTime : String
  duration : Option String
  totalPrice : Option String
  currencyCode : Option String
deriving DecidableEq

/-- One offer summarized as in the loop body of `search_flights`
(lines 82-105 of `flights_mcp.py`).  The source indexes
`offer["itineraries"][0]["segments"][0]` without a guard; an offer on which
those indexings fail makes the Python function raise, which we model as
`none`. -/
def summarizeOffer (o : Offer) : Option SummarizedOffer :=
  match o.itineraries with
  | [] => none
  | it :: _ =>
    match it.segments with
    | [] => none
    | s :: _ =>
      some { airline := s.carrier, fromCode := s.depCode, toCode := s.arrCode,
             departureTime := s.depAt, arrivalTime := s.arrAt,
             duration := it.duration, totalPrice := o.priceTotal,
             currencyCode := o.priceCurrency }

/-- Return value of the embedded `search_flights`: the results mapping, the
error mapping produced by the `except ResponseError` handler, or an uncaught
exception escaping the function (malformed offer data). -/
inductive FlightsReturn
  | results (origin destination : Option String) (departureDate : String)
      (numAdults : Int) (numResults : Nat) (flights : List SummarizedOffer)
  | errorMap (e : String)
  | uncaught (e : String)
deriving DecidableEq

/-- Embedding of `search_flights` (`flights_mcp.py` lines 64-116).
`code` abstracts `get_airport_code` (a network lookup returning a sky id or
`None`); `backend` abstracts the `amadeus.shopping.flight_offers_search.get`
call, returning either the offers list or a raised `ResponseError` rendered
to its string form.  Only `ResponseError` is caught; the summarization loop
runs outside any guard against malformed offers. -/
def search_flights (code : String → Option String)
    (backend : Option String → Option String → String → Int → Except String (List Offer))
    (origin destination departure_date : String) (num_adults : Int) : FlightsReturn :=
  let o := code origin
  let d := code destination
  match backend o d departure_date num_adults with
  | .error e => .errorMap e
  | .ok offers =>
    match offers.mapM summarizeOffer with
    | none => .uncaught "offer missing itineraries or segments"
    | some summarized =>
      .results o d departure_date num_adults summarized.length summarized

/-- Return value of the embedded `get_cheapest_flight`: the summarized offer
mapping, the no-flights message mapping, the error mapping from the
`except ResponseError` handler, or an uncaught exception. -/
inductive CheapestReturn
  | offerMap (airline fromCode toCode depTime arrTime : String)
      (duration totalPrice currencyCode : Option String)
  | noFlights
  | errorMap (e : String)
  | uncaught (e : String)
deriving DecidableEq

/-- The branch of `get_cheapest_flight` taken once `offers` is known to be
non-empty (`flights_mcp.py` lines 134-157): summarize `offers[0]`. -/
def cheapestFromOffer (o : Offer) : CheapestReturn :=
  match o.itineraries with
  | [] => .uncaught "offer missing itineraries or segments"
  | it :: _ =>
    match it.segments with
    | [] => .uncaught "offer missing itineraries or segments"
    | s :: _ =>
      .offerMap s.carrier s.depCode s.arrCode s.depAt s.arrAt
        it.duration o.priceTotal o.priceCurrency

/-- Embedding of `get_cheapest_flight` (`flights_mcp.py` lines 118-159).
`backend` abstracts the Amadeus call made with `max=1` and price sort; the
`if not offers` guard returns the no-flights message before `offers[0]` is
ever evaluated. -/
def get_cheapest_flight (code : String → Option String)
    (backend : Option String → Option String → Except String (List Offer))
    (origin destination : String) : CheapestReturn :=
  let o := code origin
  let d := code destination
  match backend o d with
  | .error e => .errorMap e
  | .ok offers =>
    match offers with
    | [] => .noFlights
    | offer :: _ => cheapestFromOffer offer

/-! ## Tool aggregation (`travel_planner_chatbot.py` lines 64-132)

The chatbot builds its tool set once at startup: a web-search tool and a
local `build_itinerary` tool, followed by whatever `load_mcp_tools` returned.
There is no registry object in the source; the registry is the plain Python
list `tools = [search_tool, build_itinerary, *mcp_tools]`. -/

structure ToolSpec where
  name : String
  description : String
deriving DecidableEq

def search_tool : ToolSpec :=
  { name := "duckduckgo_search",
    description := "DuckDuckGo web search fallback tool" }

def build_itinerary : ToolSpec :=
  { name := "build_itinerary",
    description := "Build a travel itinerary for a given destination, duration, and budget." }

/-- Aggregation of `MultiServerMCPClient.get_tools` across the configured
servers, as invoked in one awaited call by `load_mcp_tools`.  The adapter
gathers the per-server discovery results with fail-fast semantics: the first
failing server makes the whole call raise.  Each entry of `serverResults` is
the outcome of discovery against one configured server. -/
def get_tools (serverResults : List (Except String (List ToolSpec))) :
    Except String (List ToolSpec) :=
  match serverResults with
  | [] => .ok []
  | r :: rest =>
    match r with
    | .error e => .error e
    | .ok ts =>
      match get_tools rest with
      | .error e => .error e
      | .ok rest2 => .ok (ts ++ rest2)

/-- Embedding of `load_mcp_tools` (`travel_planner_chatbot.py` lines 72-79):
one try of the aggregated discovery call; any exception is caught and the
empty list returned, so the system still works with local tools. -/
def load_mcp_tools (serverResults : List (Except String (List ToolSpec))) :
    List ToolSpec :=
  match get_tools serverResults with
  | .ok ts => ts
  | .error _ => []

/-- Embedding of line 131, `tools = [search_tool, build_itinerary, *mcp_tools]`:
the full tool list handed to `bind_tools` and to the tool node. -/
def mkTools (mcp_tools : List ToolSpec) : List ToolSpec :=
  search_tool :: build_itinerary :: mcp_tools

/-- Adding one more tool to the aggregate list, as the source does by listing
it in the literal on line 131: plain concatenation, with no lookup of the
name and no failure path. -/
def registerTool (registry : List ToolSpec) (t : ToolSpec) : List ToolSpec :=
  registry ++ [t]

/-- Tool catalog presented to the model on the i-th model invocation of a
session.  `chat_node` (lines 138-142) always invokes the module-level
`llm_with_tools`, which was bound once at startup from `mkTools`; nothing
rebinds it, so the catalog does not depend on the invocation index. -/
def catalogAtInvocation (mcp_tools : List ToolSpec) (_i : Nat) : List ToolSpec :=
  mkTools mcp_tools

/-! ## Orchestration graph (`travel_planner_chatbot.py` lines 134-169)

The graph built in the source has a chat node and a tool node:
START leads to `chat_node`; a conditional edge routes from `chat_node` to
`tools` when the model response carries tool calls and to END otherwise; the
edge from `tools` returns to `chat_node`.  The graph runtime that drives this
wiring (the LangGraph executor, with its per-run step limit) is library code
not present in the repository.  Modelled from the spec: one turn alternates
AWAITING MODEL and EXECUTING TOOLS phases; the tool node appends one result
message per requested call, in the order the requests were issued; a
configured maximum number of cycles bounds the loop, and exceeding it ends
the turn with an orchestration-limit-exceeded failure rather than a crash. -/

structure ToolCall where
  id : String
  name : String
  args : String
deriving DecidableEq

/-- A model response as `chat_node` receives it: content plus a possibly
empty list of requested tool calls. -/
structure ModelResponse where
  content : String
  tool_calls : List ToolCall
deriving DecidableEq

/-- A message in the session history: user input, an assistant response
(content plus requested tool calls), or one tool result correlated to its
request by the call id. -/
inductive Msg
  | user (content : String)
  | assistant (content : String) (tool_calls : List ToolCall)
  | toolResult (tool_call_id : String) (content : String)
deriving DecidableEq

/-- One AWAITING MODEL visit and, when the response requests tool calls, the
EXECUTING TOOLS phase that follows it.  `model` abstracts the bound language
model invoked by `chat_node`; `execTool` abstracts executing one requested
call through the tool node.  The assistant message is appended first; tool
result messages are appended in the order of the request list.  The boolean
is true when the response had no tool calls, i.e. the conditional edge routes
to END. -/
def cycleStep (model : List Msg → ModelResponse) (execTool : ToolCall → String)
    (h : List Msg) : List Msg × Bool :=
  let resp := model h
  let h1 := h ++ [Msg.assistant resp.content resp.tool_calls]
  if resp.tool_calls.isEmpty then (h1, true)
  else (h1 ++ resp.tool_calls.map (fun c => Msg.toolResult c.id (execTool c)), false)

/-- Outcome of one orchestration turn: the final history on normal
completion, or the history at the point the cycle limit was exhausted. -/
inductive TurnResult
  | done (history : List Msg)
  | limitExceeded (history : List Msg)
deriving DecidableEq

/-- Modelled from the spec: one orchestration turn under a configured maximum
number of AWAITING MODEL / EXECUTING TOOLS cycles (the LangGraph run-time
step limit is library code outside the repository).  Returns the turn result
together with the number of cycles actually used; exhausting the limit yields
a limit-exceeded failure value, not a crash. -/
def runTurn (model : List Msg → ModelResponse) (execTool : ToolCall → String) :
    Nat → List Msg → TurnResult × Nat
  | 0, h => (TurnResult.limitExceeded h, 0)
  | n + 1, h =>
    let s := cycleStep model execTool h
    if s.2 then (TurnResult.done s.1, 1)
    else
      let r := runTurn model execTool n s.1
      (r.1, r.2 + 1)

/-! ## Conversation state store (`travel_planner_chatbot.py` lines 148-180)

The source persists history through an `AsyncSqliteSaver` checkpointer and
the `add_messages` reducer on `ChatState`, and lists sessions by collecting
thread ids from the checkpointer (`retrieve_all_threads`, lines 172-180).
Modelled from the spec: the store is keyed by session id and holds an ordered
message log; `load` of an unknown id yields the empty sequence, `append`
adds one message at the end of that session log, creating the session on
first append, and `list_sessions` enumerates the known ids. -/

abbrev SessionId := String

/-- Modelled from the spec: the backing store, a map from session id to its
ordered message log, represented as an association list in creation order
(the SQLite checkpointer itself is library code outside the repository). -/
abbrev Store := List (SessionId × List Msg)

/-- Modelled from the spec: `load(session_id)` returns the ordered message
sequence for that id, or the empty sequence if the id is unknown. -/
def loadSession (s : Store) (sid : SessionId) : List Msg :=
  match s with
  | [] => []
  | (k, ms) :: rest => if k = sid then ms else loadSession rest sid

/-- Modelled from the spec: `append(session_id, message)` persists one
message at the end of that session log, creating the session when the id is
new. -/
def appendMessage (s : Store) (sid : SessionId) (m : Msg) : Store :=
  match s with
  | [] => [(sid, [m])]
  | (k, ms) :: rest =>
    if k = sid then (k, ms ++ [m]) :: rest
    else (k, ms) :: appendMessage rest sid m

/-- Embedding of `retrieve_all_threads` (lines 172-180): the set of known
session ids, here in store order (the source collects them into a Python
set, so it guarantees membership, not order). -/
def list_sessions (s : Store) : List SessionId :=
  s.map Prod.fst

/-! ## Theorems -/

/-- C9: on every input for which the flight backend raises a ResponseError,
both `search_flights` and `get_cheapest_flight` catch the exception and
return the mapping with key "error" holding the string form of the error,
instead of propagating the exception to the caller. -/
theorem c9_response_error_caught (code : String → Option String)
    (backend : Option String → Option String → String → Int → Except String (List Offer))
    (backend1 : Option String → Option String → Except String (List Offer))
    (origin destination departure_date : String) (num_adults : Int) (e1 e2 : String)
    (h1 : backend (code origin) (code destination) departure_date num_adults = Except.error e1)
    (h2 : backend1 (code origin) (code destination) = Except.error e2) :
    search_flights code backend origin destination departure_date num_adults =
      FlightsReturn.errorMap e1 ∧
    get_cheapest_flight code backend1 origin destination = CheapestReturn.errorMap e2 := by
  constructor
  · simp [search_flights, h1]
  · simp [get_cheapest_flight, h2]

theorem c9_response_error_caught_witness :
    search_flights (fun _ => some "JFK") (fun _ _ _ _ => Except.error "boom")
      "new york" "paris" "2025-01-01" 1 = FlightsReturn.errorMap "boom" ∧
    get_cheapest_flight (fun _ => some "JFK") (fun _ _ => Except.error "boom")
      "new york" "paris" = CheapestReturn.errorMap "boom" :=
  c9_response_error_caught (fun _ => some "JFK") (fun _ _ _ _ => Except.error "boom")
    (fun _ _ => Except.error "boom") "new york" "paris" "2025-01-01" 1 "boom" "boom" rfl rfl

/-- C10: when the backend returns an empty offers list, `get_cheapest_flight`
returns the no-flights message mapping, and the `offers[0]` access
(`cheapestFromOffer`) is reached only when the offers list is non-empty, in
which case the result is computed from the head offer and is never the
no-flights message. -/
theorem c10_empty_offers_guard (code : String → Option String)
    (backend : Option String → Option String → Except String (List Offer))
    (origin destination : String) :
    (backend (code origin) (code destination) = Except.ok [] →
      get_cheapest_flight code backend origin destination = CheapestReturn.noFlights) ∧
    (∀ x xs, backend (code origin) (code destination) = Except.ok (x :: xs) →
      get_cheapest_flight code backend origin destination = cheapestFromOffer x ∧
      cheapestFromOffer x ≠ CheapestReturn.noFlights) := by
  refine ⟨fun h => by simp [get_cheapest_flight, h], fun x xs h => ⟨by simp [get_cheapest_flight, h], ?_⟩⟩
  cases hx : x.itineraries with
  | nil => simp [cheapestFromOffer, hx]
  | cons it rest =>
    cases hs : it.segments with
    | nil => simp [cheapestFromOffer, hx, hs]
    | cons s srest => simp [cheapestFromOffer, hx, hs]

def sampleOffer : Offer :=
  { itineraries := [{ segments := [{ depCode := "JFK", depAt := "t1", arrCode := "CDG",
                                     arrAt := "t2", carrier := "AF" }],
                      duration := some "PT7H" }],
    priceTotal := some "450.00", priceCurrency := some "USD" }

theorem c10_empty_offers_guard_witness :
    get_cheapest_flight (fun _ => some "JFK") (fun _ _ => Except.ok []) "a" "b" =
      CheapestReturn.noFlights ∧
    get_cheapest_flight (fun _ => some "JFK") (fun _ _ => Except.ok [sampleOffer]) "a" "b" =
      cheapestFromOffer sampleOffer :=
  ⟨(c10_empty_offers_guard (fun _ => some "JFK") (fun _ _ => Except.ok []) "a" "b").1 rfl,
   ((c10_empty_offers_guard (fun _ => some "JFK") (fun _ _ => Except.ok [sampleOffer]) "a" "b").2
     sampleOffer [] rfl).1⟩

def healthyTool : ToolSpec :=
  { name := "search_hotels", description := "hotel search tool from a reachable server" }

/-- C4 counterexample: with one unreachable server and one healthy server
offering `healthyTool`, discovery returns the empty list, so the aggregated
tool list drops the healthy server tools as well — the failing server is not
the only one excluded. -/
theorem c4_only_failing_excluded_cex :
    load_mcp_tools [Except.error "unreachable", Except.ok [healthyTool]] = [] ∧
    healthyTool ∉ mkTools (load_mcp_tools [Except.error "unreachable", Except.ok [healthyTool]]) := by
  decide

theorem get_tools_isError_of_mem (rs : List (Except String (List ToolSpec))) (e : String)
    (h : Except.error e ∈ rs) : ∃ e2, get_tools rs = Except.error e2 := by
  induction rs with
  | nil => cases h
  | cons r rest ih =>
    cases r with
    | error e3 => exact ⟨e3, rfl⟩
    | ok ts =>
      have h2 : Except.error e ∈ rest := by
        rcases List.mem_cons.mp h with h | h
        · simp at h
        · exact h
      rcases ih h2 with ⟨e2, he2⟩
      exact ⟨e2, by simp [get_tools, he2]⟩

/-- C4 amended: if discovery from any configured server fails, registry
construction still succeeds (no exception escapes `load_mcp_tools`) and the
local tools are retained, but all remote tools are excluded — those of
healthy servers included — because the aggregated discovery call is
all-or-nothing. -/
theorem c4_degraded_startup (rs : List (Except String (List ToolSpec))) (e : String)
    (h : Except.error e ∈ rs) :
    load_mcp_tools rs = [] ∧
    search_tool ∈ mkTools (load_mcp_tools rs) ∧
    build_itinerary ∈ mkTools (load_mcp_tools rs) := by
  obtain ⟨e2, he2⟩ := get_tools_isError_of_mem rs e h
  refine ⟨by simp [load_mcp_tools, he2], ?_, ?_⟩ <;> simp [mkTools]

theorem c4_degraded_startup_witness :
    load_mcp_tools [Except.error "unreachable"] = [] ∧
    search_tool ∈ mkTools (load_mcp_tools [Except.error "unreachable"]) ∧
    build_itinerary ∈ mkTools (load_mcp_tools [Except.error "unreachable"]) :=
  c4_degraded_startup [Except.error "unreachable"] "unreachable" (List.mem_singleton.mpr rfl)

def duplicateItineraryTool : ToolSpec :=
  { name := "build_itinerary", description := "a second tool reusing an existing name" }

/-- C5 counterexample: adding a tool whose name `build_itinerary` already
occurs in the startup list does not fail with any error — the list simply
grows to length 3 and afterwards holds two tools with that name. -/
theorem c5_duplicate_name_cex :
    (registerTool (mkTools []) duplicateItineraryTool).length = 3 ∧
    duplicateItineraryTool ∈ registerTool (mkTools []) duplicateItineraryTool ∧
    ((registerTool (mkTools []) duplicateItineraryTool).filter
      (fun t => t.name == "build_itinerary")).length = 2 := by
  decide

/-- C5 amended: registration is plain list concatenation with no
name-uniqueness check: adding any ToolSpec always succeeds, also when its
name already exists in the registry — the count of tools bearing that name
simply increases by one, and no DuplicateToolName error exists in the code. -/
theorem c5_register_never_fails (r : List ToolSpec) (t : ToolSpec) :
    t ∈ registerTool r t ∧
    (registerTool r t).length = r.length + 1 ∧
    ((registerTool r t).filter (fun u => u.name == t.name)).length =
      (r.filter (fun u => u.name == t.name)).length + 1 := by
  refine ⟨List.mem_append_right _ (List.mem_singleton.mpr rfl), by simp [registerTool], ?_⟩
  simp [registerTool, List.filter_append]

/-- C6: the tool catalog is deterministic in insertion order — the two local
tools in declaration order followed by the discovered tools in discovery
order — and the catalog presented to the model is the same list on every
model invocation of a session. -/
theorem c6_constant_catalog (mcp_tools : List ToolSpec) (i j : Nat) :
    catalogAtInvocation mcp_tools i = catalogAtInvocation mcp_tools j ∧
    catalogAtInvocation mcp_tools i = search_tool :: build_itinerary :: mcp_tools :=
  ⟨rfl, rfl⟩

theorem cycleStep_snd (model : List Msg → ModelResponse) (execTool : ToolCall → String)
    (h : List Msg) :
    (cycleStep model execTool h).2 = (model h).tool_calls.isEmpty := by
  by_cases hc : (model h).tool_calls.isEmpty <;> simp [cycleStep, hc]

/-- C1: a model that requests at least one tool call on every cycle makes the
turn terminate with the limit-exceeded failure value after exactly the
configured maximum number of AWAITING MODEL / EXECUTING TOOLS cycles — the
run neither loops forever nor escapes with an exception. -/
theorem c1_loop_bound (model : List Msg → ModelResponse) (execTool : ToolCall → String)
    (limit : Nat) (h0 : List Msg)
    (halways : ∀ h, (model h).tool_calls ≠ []) :
    ∃ hist, runTurn model execTool limit h0 = (TurnResult.limitExceeded hist, limit) := by
  induction limit generalizing h0 with
  | zero => exact ⟨h0, rfl⟩
  | succ n ih =>
    obtain ⟨hist, hh⟩ := ih (cycleStep model execTool h0).1
    refine ⟨hist, ?_⟩
    have hsnd : (cycleStep model execTool h0).2 = false := by
      rw [cycleStep_snd]
      simpa using halways h0
    simp [runTurn, hsnd, hh]

def alwaysToolModel : List Msg → ModelResponse :=
  fun _ => { content := "calling a tool",
             tool_calls := [{ id := "1", name := "search_hotels", args := "Paris" }] }

theorem c1_loop_bound_witness :
    ∃ hist, runTurn alwaysToolModel (fun _ => "result") 2 [Msg.user "plan a trip"] =
      (TurnResult.limitExceeded hist, 2) :=
  c1_loop_bound alwaysToolModel (fun _ => "result") 2 [Msg.user "plan a trip"]
    (fun h => by simp [alwaysToolModel])

/-- C2: a model response with zero tool-call requests ends the turn in the
DONE state after exactly one AWAITING MODEL visit (cycle count 1), appending
exactly one assistant message to the session history. -/
theorem c2_no_tool_calls_done (model : List Msg → ModelResponse) (execTool : ToolCall → String)
    (n : Nat) (h0 : List Msg) (hnone : (model h0).tool_calls = []) :
    runTurn model execTool (n + 1) h0 =
      (TurnResult.done (h0 ++ [Msg.assistant (model h0).content []]), 1) := by
  simp [runTurn, cycleStep, hnone]

def finalAnswerModel : List Msg → ModelResponse :=
  fun _ => { content := "Here is your itinerary", tool_calls := [] }

theorem c2_no_tool_calls_done_witness :
    runTurn finalAnswerModel (fun _ => "result") 3 [Msg.user "plan a trip"] =
      (TurnResult.done [Msg.user "plan a trip", Msg.assistant "Here is your itinerary" []], 1) := by
  have h := c2_no_tool_calls_done finalAnswerModel (fun _ => "result") 2 [Msg.user "plan a trip"] rfl
  simpa [finalAnswerModel] using h

/-- C3: when the model response requests the tool calls [a, b] in that order,
the cycle appends the a-result message and then the b-result message, in the
order the requests were issued, right after the assistant message. -/
theorem c3_result_order (model : List Msg → ModelResponse) (execTool : ToolCall → String)
    (h0 : List Msg) (a b : ToolCall) (hcalls : (model h0).tool_calls = [a, b]) :
    cycleStep model execTool h0 =
      (h0 ++ [Msg.assistant (model h0).content [a, b],
              Msg.toolResult a.id (execTool a),
              Msg.toolResult b.id (execTool b)], false) := by
  simp [cycleStep, hcalls]

def twoCallModel : List Msg → ModelResponse :=
  fun _ => { content := "need data",
             tool_calls := [{ id := "a1", name := "search_flights", args := "NYC" },
                            { id := "b2", name := "search_hotels", args := "Paris" }] }

theorem c3_result_order_witness :
    cycleStep twoCallModel (fun c => c.name) [Msg.user "plan"] =
      ([Msg.user "plan",
        Msg.assistant "need data" [{ id := "a1", name := "search_flights", args := "NYC" },
                                   { id := "b2", name := "search_hotels", args := "Paris" }],
        Msg.toolResult "a1" "search_flights",
        Msg.toolResult "b2" "search_hotels"], false) := by
  have h := c3_result_order twoCallModel (fun c => c.name) [Msg.user "plan"]
    { id := "a1", name := "search_flights", args := "NYC" }
    { id := "b2", name := "search_hotels", args := "Paris" } rfl
  simpa [twoCallModel] using h

theorem load_appendMessage (s : Store) (sid : SessionId) (m : Msg) :
    loadSession (appendMessage s sid m) sid = loadSession s sid ++ [m] := by
  induction s with
  | nil => simp [appendMessage, loadSession]
  | cons p rest ih =>
    obtain ⟨k, ms⟩ := p
    by_cases hk : k = sid
    · simp [appendMessage, loadSession, hk]
    · simp [appendMessage, loadSession, hk, ih]

/-- C7: round trip through the state store — appending m1, m2, m3 to a
session in that order and then loading the session returns the previous
history followed by m1, m2, m3 in exactly that order. -/
theorem c7_round_trip (s : Store) (sid : SessionId) (m1 m2 m3 : Msg) :
    loadSession
      (appendMessage (appendMessage (appendMessage s sid m1) sid m2) sid m3) sid =
      loadSession s sid ++ [m1, m2, m3] := by
  simp [load_appendMessage]

theorem load_eq_nil_of_fresh (s : Store) (sid : SessionId) (h : sid ∉ list_sessions s) :
    loadSession s sid = [] := by
  induction s with
  | nil => rfl
  | cons p rest ih =>
    obtain ⟨k, ms⟩ := p
    simp only [list_sessions, List.map_cons, List.mem_cons, not_or] at h
    have hk : k ≠ sid := fun hkk => h.1 hkk.symm
    simpa [loadSession, hk] using ih h.2

theorem sessions_appendMessage_fresh (s : Store) (sid : SessionId) (m : Msg)
    (h : sid ∉ list_sessions s) :
    list_sessions (appendMessage s sid m) = list_sessions s ++ [sid] := by
  induction s with
  | nil => rfl
  | cons p rest ih =>
    obtain ⟨k, ms⟩ := p
    simp only [list_sessions, List.map_cons, List.mem_cons, not_or] at h
    have hk : k ≠ sid := fun hkk => h.1 hkk.symm
    simpa [appendMessage, list_sessions, hk] using ih h.2

/-- C8: for a session id never seen before, load returns the empty sequence
(no error), and appending a first user message for that id creates exactly
one new session, which becomes visible in the session listing. -/
theorem c8_fresh_session (s : Store) (sid : SessionId) (m : Msg)
    (h : sid ∉ list_sessions s) :
    loadSession s sid = [] ∧
    list_sessions (appendMessage s sid m) = list_sessions s ++ [sid] :=
  ⟨load_eq_nil_of_fresh s sid h, sessions_appendMessage_fresh s sid m h⟩

theorem c8_fresh_session_witness :
    loadSession [("alice", [Msg.user "hi"])] "bob" = [] ∧
    list_sessions (appendMessage [("alice", [Msg.user "hi"])] "bob" (Msg.user "plan")) =
      ["alice", "bob"] := by
  have h := c8_fresh_session [("alice", [Msg.user "hi"])] "bob" (Msg.user "plan") (by decide)
  simpa [list_sessions] using h

end TravelPlanner
